import Mathlib

/-!
# work-mate-server: shallow embedding of the session / social-graph / cascade core

This file embeds, in Lean 4, the data model and the operations of the
work-mate-server repository that the verified claims are about:

* the MongoDB document collections (`users`, `likes`, `messages`, `workplaces`)
  as Lean lists inside a `DB` state record, with `findOne` / `updateOne` /
  `deleteOne` / `deleteMany` modelled as first-match list operations;
* the model layer (`UserModel`, `LikeModel`, `MessageModel`) as pure state
  transformers;
* the relevant Express route handlers (`POST /auth/join`,
  `POST /auth/like/:id`, `DELETE /auth/unlike/:id`, `DELETE /auth/delete`,
  `PATCH /message/:id/read`) as functions from an (optional) authenticated
  caller and a request to an HTTP status plus the new store state;
* the JWT middleware (`generateToken`, `authenticateJWT`) together with the
  relevant semantics of the `jsonwebtoken` library: `jwt.sign` with an
  `expiresIn` option uses a caller-supplied `payload.iat` as the base
  timestamp for `exp` (`exp := iat + 86400` for `"24h"`), and `jwt.verify`
  compares `exp` against `Math.floor(Date.now() / 1000)`, i.e. seconds.
  The source puts `Date.now()` (milliseconds) into `iat`.

Timestamps are `Nat` (milliseconds since epoch, as `Date.now()`), ObjectIds
are `Nat`, MongoDB counters are `Int` (a `$inc` can drive them negative).
-/

set_option maxHeartbeats 1000000

namespace WorkMate

/-- ObjectId, modelled as a natural number. -/
abbrev OID := Nat

/-! ## Generic list-collection primitives (MongoDB semantics)

`updateOne` modifies the first matching document, `deleteOne` removes the
first matching document (returning `deletedCount`), `deleteMany` removes all
matching documents, `findOne` returns the first matching document. -/

/-- `updateOne`: apply `f` to the first element satisfying `p`. -/
def updateFirst {α : Type} (p : α → Bool) (f : α → α) : List α → List α
  | [] => []
  | x :: xs => if p x then f x :: xs else x :: updateFirst p f xs

/-- `deleteOne`: remove the first element satisfying `p`; the `Nat` is the
`deletedCount` reported by the driver. -/
def deleteFirst {α : Type} (p : α → Bool) : List α → Nat × List α
  | [] => (0, [])
  | x :: xs =>
    if p x then (1, xs)
    else
      let r := deleteFirst p xs
      (r.1, x :: r.2)

/-! ## Documents -/

/-- `User` document (src/models/User.ts, the variant with like counters).
Optional Mongo fields are `Option`; `likedCount` / `likedByCount` are the
denormalized social-graph counters. -/
structure User where
  id : OID
  email : String
  name : String
  profileImage : Option String := none
  githubId : Option String := none
  googleId : Option String := none
  skillSet : Option String := none
  githubUrl : Option String := none
  linkedinUrl : Option String := none
  company : Option String := none
  mbti : Option String := none
  collaborationGoal : Option String := none
  likedCount : Int := 0
  likedByCount : Int := 0
  createdAt : Nat := 0
  updatedAt : Nat := 0
  lastLoginAt : Option Nat := none
deriving DecidableEq, Repr

/-- `CreateUserInput` (src/models/User.ts). `email` and `name` are plain
strings; the empty string stands for a missing / falsy JS value. -/
structure CreateUserInput where
  email : String
  name : String
  profileImage : Option String := none
  githubId : Option String := none
  googleId : Option String := none
  skillSet : Option String := none
  githubUrl : Option String := none
  linkedinUrl : Option String := none
  company : Option String := none
  mbti : Option String := none
  collaborationGoal : Option String := none
deriving DecidableEq, Repr

/-- `Like` document (src/models/Like.ts): a directed edge. -/
structure Like where
  id : OID
  fromUserId : OID
  toUserId : OID
  createdAt : Nat := 0
deriving DecidableEq, Repr

/-- `Message` document (src/models/Message.ts). `toUserEmail` is `Option`
because a raw Mongo document may lack the field; `MessageModel.create`
always sets it (`some`). -/
structure Message where
  id : OID
  fromUserId : OID
  targetUserId : OID
  toUserEmail : Option String := none
  subject : String := ""
  content : String := ""
  isRead : Bool := false
  readAt : Option Nat := none
  createdAt : Nat := 0
  updatedAt : Nat := 0
deriving DecidableEq, Repr

/-- `WorkPlace` document (src/models/WorkPlace.ts). Coordinates play no role
in the verified claims; they are carried as integers. -/
structure WorkPlace where
  id : OID
  userId : OID
  name : String := ""
  latitude : Int := 0
  longitude : Int := 0
  createdAt : Nat := 0
  updatedAt : Nat := 0
deriving DecidableEq, Repr

/-- The document store: the four collections plus the id the store will
assign to the next inserted document. -/
structure DB where
  users : List User := []
  likes : List Like := []
  messages : List Message := []
  workplaces : List WorkPlace := []
  nextId : OID := 0
deriving DecidableEq, Repr

/-- Well-formedness invariant maintained by MongoDB itself: `_id` values
within the `users` collection are distinct. -/
def usersNodup (db : DB) : Prop := (db.users.map User.id).Nodup

instance (db : DB) : Decidable (usersNodup db) := by
  unfold usersNodup
  infer_instance

/-! ## UserModel (src/models/User.ts, counter-bearing variant) -/

/-- The document inserted by `UserModel.create`: the input fields plus
zero-initialized counters and timestamps. -/
def mkUserDoc (input : CreateUserInput) (uid : OID) (now : Nat) : User :=
  { id := uid
    email := input.email
    name := input.name
    profileImage := input.profileImage
    githubId := input.githubId
    googleId := input.googleId
    skillSet := input.skillSet
    githubUrl := input.githubUrl
    linkedinUrl := input.linkedinUrl
    company := input.company
    mbti := input.mbti
    collaborationGoal := input.collaborationGoal
    likedCount := 0
    likedByCount := 0
    createdAt := now
    updatedAt := now
    lastLoginAt := none }

/-- `UserModel.create`: insert the new document, return it with its id. -/
def userCreate (db : DB) (input : CreateUserInput) (now : Nat) : User × DB :=
  let u := mkUserDoc input db.nextId now
  (u, { db with users := db.users ++ [u], nextId := db.nextId + 1 })

/-- `UserModel.findByEmail`. -/
def userFindByEmail (db : DB) (email : String) : Option User :=
  db.users.find? (fun u => u.email == email)

/-- `UserModel.findByGithubId`: matches documents whose `githubId` field
exists and equals the argument. -/
def userFindByGithubId (db : DB) (gid : String) : Option User :=
  db.users.find? (fun u => u.githubId == some gid)

/-- `UserModel.findById`. -/
def userFindById (db : DB) (i : OID) : Option User :=
  db.users.find? (fun u => u.id == i)

/-- `UserModel.updateLastLogin`: `$set { lastLoginAt, updatedAt }` on the
first document with the given id. -/
def userUpdateLastLogin (db : DB) (i : OID) (now : Nat) : DB :=
  { db with
    users := updateFirst (fun u => u.id == i)
      (fun u => { u with lastLoginAt := some now, updatedAt := now }) db.users }

/-- `UserModel.update` specialized to the patch the GitHub verify callback
passes: `$set { githubId, profileImage, updatedAt }`. When the profile has
no photo the driver serializes the `undefined` value as `null`, i.e. the
field is set to `none`. Returns the post-update document
(`returnDocument: "after"`). -/
def userUpdateGithubAttach (db : DB) (i : OID) (gid : String)
    (img : Option String) (now : Nat) : Option User × DB :=
  match db.users.find? (fun u => u.id == i) with
  | none => (none, db)
  | some u =>
    (some { u with githubId := some gid, profileImage := img, updatedAt := now },
     { db with
       users := updateFirst (fun x => x.id == i)
         (fun x => { x with githubId := some gid, profileImage := img, updatedAt := now })
         db.users })

/-- The two counter fields `incrementLikeCount` / `decrementLikeCount` can
target. -/
inductive CounterField
  | likedCount
  | likedByCount
deriving DecidableEq, Repr

/-- The `$inc`-by-`d` update document used by
`UserModel.incrementLikeCount` / `decrementLikeCount` (also `$set`s
`updatedAt`). -/
def incBy (field : CounterField) (d : Int) (now : Nat) (u : User) : User :=
  match field with
  | .likedCount => { u with likedCount := u.likedCount + d, updatedAt := now }
  | .likedByCount => { u with likedByCount := u.likedByCount + d, updatedAt := now }

/-- `UserModel.incrementLikeCount`: `$inc` the given field by one on the
first document with the given id. -/
def userIncrementLikeCount (db : DB) (i : OID) (field : CounterField) (now : Nat) : DB :=
  { db with users := updateFirst (fun u => u.id == i) (incBy field 1 now) db.users }

/-- `UserModel.decrementLikeCount`: `$inc` the given field by minus one. -/
def userDecrementLikeCount (db : DB) (i : OID) (field : CounterField) (now : Nat) : DB :=
  { db with users := updateFirst (fun u => u.id == i) (incBy field (-1) now) db.users }

/-! ## LikeModel (src/models/Like.ts) -/

/-- `LikeModel.exists`: `findOne { fromUserId, toUserId }` is non-null. -/
def likeExists (db : DB) (fromId toId : OID) : Bool :=
  (db.likes.find? (fun l => l.fromUserId == fromId && l.toUserId == toId)).isSome

/-- `LikeModel.create`: if an edge already exists the thrown error is caught
and `null` is returned with the store untouched; otherwise the edge is
inserted and both counters incremented. -/
def likeCreate (db : DB) (fromId toId : OID) (now : Nat) : Option Like × DB :=
  match db.likes.find? (fun l => l.fromUserId == fromId && l.toUserId == toId) with
  | some _ => (none, db)
  | none =>
    let lk : Like := { id := db.nextId, fromUserId := fromId, toUserId := toId, createdAt := now }
    let db1 : DB := { db with likes := db.likes ++ [lk], nextId := db.nextId + 1 }
    let db2 := userIncrementLikeCount db1 fromId .likedCount now
    let db3 := userIncrementLikeCount db2 toId .likedByCount now
    (some lk, db3)

/-- `LikeModel.delete`: `deleteOne { fromUserId, toUserId }`; when nothing
was deleted the thrown error is caught and `false` returned with no counter
change; otherwise both counters are decremented. -/
def likeDelete (db : DB) (fromId toId : OID) (now : Nat) : Bool × DB :=
  let r := deleteFirst (fun l => l.fromUserId == fromId && l.toUserId == toId) db.likes
  if r.1 == 0 then (false, db)
  else
    let db1 : DB := { db with likes := r.2 }
    let db2 := userDecrementLikeCount db1 fromId .likedCount now
    let db3 := userDecrementLikeCount db2 toId .likedByCount now
    (true, db3)

/-- `LikeModel.deleteByUserId`: read the edges the user gave and received,
decrement the counterpart counter once per edge, then `deleteMany` every
edge touching the user. -/
def likeDeleteByUserId (db : DB) (i : OID) (now : Nat) : DB :=
  let likesGiven := db.likes.filter (fun l => l.fromUserId == i)
  let likesReceived := db.likes.filter (fun l => l.toUserId == i)
  let db1 := likesGiven.foldl
    (fun d l => userDecrementLikeCount d l.toUserId .likedByCount now) db
  let db2 := likesReceived.foldl
    (fun d l => userDecrementLikeCount d l.fromUserId .likedCount now) db1
  { db2 with likes := db2.likes.filter (fun l => !(l.fromUserId == i || l.toUserId == i)) }

/-- `LikeModel.getLikeCount`: `countDocuments { fromUserId }`. -/
def likeGetLikeCount (db : DB) (fromId : OID) : Nat :=
  (db.likes.filter (fun l => l.fromUserId == fromId)).length

/-- `LikeModel.getLikedByCount`: `countDocuments { toUserId }`. -/
def likeGetLikedByCount (db : DB) (toId : OID) : Nat :=
  (db.likes.filter (fun l => l.toUserId == toId)).length

/-! ## WorkPlaceModel -/

/-- Modelled from the spec: `WorkPlaceModel.deleteByUserId` is called by
`UserModel.delete` but its definition is not among the provided source
files. Spec section 4.6: "removes all WorkPlaces owned by `userId`", i.e. a
`deleteMany { userId }`. -/
def workplaceDeleteByUserId (db : DB) (i : OID) : DB :=
  { db with workplaces := db.workplaces.filter (fun w => !(w.userId == i)) }

/-- `UserModel.delete`: cascade — delete the user's workplaces, delete the
like edges touching the user (fixing counterpart counters), then
`deleteOne` the user document itself; returns `deletedCount > 0`. Note:
messages are NOT touched. -/
def userDelete (db : DB) (i : OID) (now : Nat) : Bool × DB :=
  let db1 := workplaceDeleteByUserId db i
  let db2 := likeDeleteByUserId db1 i now
  let r := deleteFirst (fun u => u.id == i) db2.users
  (r.1 != 0, { db2 with users := r.2 })

/-! ## MessageModel (src/models/Message.ts) -/

/-- `MessageModel.findById`. -/
def messageFindById (db : DB) (i : OID) : Option Message :=
  db.messages.find? (fun m => m.id == i)

/-- `MessageModel.create`: requires the target user to exist (otherwise the
model throws, surfaced by the route as a 500); snapshots the target's
current email into `toUserEmail`. -/
def messageCreate (db : DB) (fromId targetId : OID) (subject content : String)
    (now : Nat) : Option (Message × DB) :=
  match userFindById db targetId with
  | none => none
  | some target =>
    let m : Message :=
      { id := db.nextId
        fromUserId := fromId
        targetUserId := targetId
        toUserEmail := some target.email
        subject := subject
        content := content
        isRead := false
        readAt := none
        createdAt := now
        updatedAt := now }
    some (m, { db with messages := db.messages ++ [m], nextId := db.nextId + 1 })

/-- `MessageModel.markAsRead`: `findOneAndUpdate` setting `isRead`,
`readAt`, `updatedAt`, returning the post-update document. -/
def messageMarkAsRead (db : DB) (i : OID) (now : Nat) : Option Message × DB :=
  match db.messages.find? (fun m => m.id == i) with
  | none => (none, db)
  | some m =>
    (some { m with isRead := true, readAt := some now, updatedAt := now },
     { db with
       messages := updateFirst (fun x => x.id == i)
         (fun x => { x with isRead := true, readAt := some now, updatedAt := now })
         db.messages })

/-- `MessageModel.deleteByUserId`: `deleteMany` with
`$or: [ { fromUserId }, { toUserEmail: { $exists: true } } ]`. The second
clause matches every document whose `toUserEmail` field is present. -/
def messageDeleteByUserId (db : DB) (i : OID) : DB :=
  { db with
    messages := db.messages.filter
      (fun m => !(m.fromUserId == i || m.toUserEmail.isSome)) }

/-! ## JWT middleware (src/middleware/auth.ts) and `jsonwebtoken` semantics

`generateToken` signs `{ userId, iat: Date.now() }` with
`expiresIn: "24h"`. In `jsonwebtoken`, when the payload already carries an
`iat`, that value is used as the base timestamp, so the signed token gets
`exp = payload.iat + 86400`; `jwt.verify` reports `TokenExpiredError` when
`Math.floor(Date.now() / 1000) >= exp`. The source's `iat` is in
milliseconds while `exp` is compared against seconds. -/

/-- JWT payload as produced by `generateToken`: the user id and the
caller-supplied `iat` (`Date.now()`, milliseconds). -/
structure JwtPayload where
  userId : OID
  iat : Nat
deriving DecidableEq, Repr

/-- A structurally well-formed signed token: payload, computed `exp`, and
the signature (modelled by the secret that produced it). -/
structure SignedToken where
  payload : JwtPayload
  exp : Nat
  sig : String
deriving DecidableEq, Repr

/-- A cookie value presented as the `auth_token`: either a structurally
valid token or a malformed string (which makes `jwt.verify` throw). -/
inductive Cred
  | token (t : SignedToken)
  | malformed
deriving DecidableEq, Repr

/-- Seconds in 24 hours, the `expiresIn: "24h"` timespan. -/
def day_s : Nat := 24 * 60 * 60

/-- Milliseconds in 2 hours, the sliding-renewal threshold. -/
def twoHours_ms : Nat := 2 * 60 * 60 * 1000

/-- `jwt.sign({userId, iat}, secret, {expiresIn: "24h"})`:
`exp := iat + 86400` because the supplied `iat` is used as the base. -/
def jwtSign (userId : OID) (iat : Nat) (secret : String) : SignedToken :=
  { payload := { userId := userId, iat := iat }, exp := iat + day_s, sig := secret }

/-- `jwt.verify(token, secret)` at wall-clock `nowMs`: `none` models a
thrown `JsonWebTokenError` / `TokenExpiredError` (malformed input, wrong
signature, or `Math.floor(nowMs / 1000) >= exp`). -/
def jwtVerify (c : Cred) (secret : String) (nowMs : Nat) : Option JwtPayload :=
  match c with
  | .malformed => none
  | .token t =>
    if t.sig != secret then none
    else if t.exp ≤ nowMs / 1000 then none
    else some t.payload

/-- `generateToken`: payload `{ userId, iat: Date.now() }`, 24h expiry. -/
def generateToken (userId : OID) (nowMs : Nat) (secret : String) : SignedToken :=
  jwtSign userId nowMs secret

/-- Outcome of the `authenticateJWT` middleware: the resolved `req.user`,
the value of `req.isAuthenticated()`, and the renewed cookie set on the
response by `setCookieWithToken` (if any). The middleware always calls
`next()`; it never produces an error response. -/
structure AuthResult where
  user : Option User
  isAuthenticated : Bool
  newCookie : Option SignedToken
deriving DecidableEq, Repr

/-- `authenticateJWT` (the sliding-renewal variant): missing cookie,
verification failure, or unknown user id all fall through to an anonymous
request; a verified token additionally renews the cookie when
`Date.now() - payload.iat <= 2h`. -/
def authenticateJWT (db : DB) (cookie : Option Cred) (secret : String)
    (nowMs : Nat) : AuthResult :=
  match cookie with
  | none => { user := none, isAuthenticated := false, newCookie := none }
  | some c =>
    match jwtVerify c secret nowMs with
    | none => { user := none, isAuthenticated := false, newCookie := none }
    | some payload =>
      match userFindById db payload.userId with
      | none => { user := none, isAuthenticated := false, newCookie := none }
      | some u =>
        { user := some u
          isAuthenticated := true
          newCookie :=
            if nowMs - payload.iat ≤ twoHours_ms then
              some (generateToken payload.userId nowMs secret)
            else none }

/-! ## Route handlers

Each handler takes the already-resolved authenticated caller
(`auth : Option OID`, the id behind `req.user`) and returns the HTTP status
code it responds with, together with the new store state. -/

/-- `POST /auth/join` (src/routes/auth.ts): required fields, free-text
bound, duplicate-email conflict, then `UserModel.create` and a session
cookie. An empty `email` / `name` models the falsy (missing or empty) JS
value. -/
def goalTooLong (goal : Option String) : Bool :=
  match goal with
  | some g => 1000 < g.length
  | none => false

def routeJoin (db : DB) (body : CreateUserInput) (now : Nat) : Nat × DB :=
  if body.email == "" || body.name == "" then (400, db)
  else if goalTooLong body.collaborationGoal then (400, db)
  else
    match userFindByEmail db body.email with
    | some _ => (409, db)
    | none =>
      let r := userCreate db body now
      (200, r.2)

/-- `POST /auth/like/:targetUserId` (src/routes/auth.ts): 401 when
anonymous, 400 on self-like, 404 on unknown target, 400 when the edge
already exists, 500 when `LikeModel.create` returns `null`, else 200. The
path parameter is always present, so the missing-parameter 400 branch is
unreachable. -/
def routeLike (db : DB) (auth : Option OID) (targetUserId : OID) (now : Nat) : Nat × DB :=
  match auth with
  | none => (401, db)
  | some me =>
    if me == targetUserId then (400, db)
    else
      match userFindById db targetUserId with
      | none => (404, db)
      | some _ =>
        if likeExists db me targetUserId then (400, db)
        else
          match likeCreate db me targetUserId now with
          | (none, db') => (500, db')
          | (some _, db') => (200, db')

/-- `DELETE /auth/unlike/:targetUserId` (src/routes/auth.ts): 401 when
anonymous, 404 on unknown target, 400 when no edge exists, 500 when
`LikeModel.delete` returns `false`, else 200. -/
def routeUnlike (db : DB) (auth : Option OID) (targetUserId : OID) (now : Nat) : Nat × DB :=
  match auth with
  | none => (401, db)
  | some me =>
    match userFindById db targetUserId with
    | none => (404, db)
    | some _ =>
      if !likeExists db me targetUserId then (400, db)
      else
        match likeDelete db me targetUserId now with
        | (false, db') => (500, db')
        | (true, db') => (200, db')

/-- `DELETE /auth/delete` (src/routes/auth.ts): 401 when anonymous, then
`UserModel.delete` cascade; 404 when no user document was deleted, else the
auth cookie is cleared and 200 returned. The `Bool` in the result is
whether `clearCookie("auth_token")` ran. -/
def routeDeleteAccount (db : DB) (auth : Option OID) (now : Nat) : Nat × Bool × DB :=
  match auth with
  | none => (401, false, db)
  | some me =>
    let r := userDelete db me now
    if !r.1 then (404, false, r.2)
    else (200, true, r.2)

/-- `PATCH /message/:id/read` (src/routes/message.ts): 401 when anonymous,
404 on unknown message, 403 unless the caller is the message's target, else
`MessageModel.markAsRead` and 200 with the updated document. -/
def routeMarkRead (db : DB) (auth : Option OID) (msgId : OID) (now : Nat) :
    Nat × Option Message × DB :=
  match auth with
  | none => (401, none, db)
  | some me =>
    match messageFindById db msgId with
    | none => (404, none, db)
    | some m =>
      if m.targetUserId != me then (403, none, db)
      else
        let r := messageMarkAsRead db msgId now
        (200, r.1, r.2)

/-! ## GitHub OAuth verify callback (src/config/passport.ts) -/

/-- The fields of the incoming `passport-github2` profile the callback
reads. `displayName` / `username` are plain strings where the empty string
models the falsy JS value; `emails` / `photos` carry the `value` fields. -/
structure GitHubProfile where
  id : String
  emails : List String := []
  displayName : String := ""
  username : String := ""
  photos : List String := []
deriving DecidableEq, Repr

/-- The email key the callback looks up:
`profile.emails?.[0]?.value || ""`. -/
def profileEmailKey (p : GitHubProfile) : String :=
  p.emails.headD ""

/-- The display name used when creating a fresh account:
`profile.displayName || profile.username || ""`. -/
def profileName (p : GitHubProfile) : String :=
  if p.displayName == "" then (if p.username == "" then "" else p.username)
  else p.displayName

/-- The GitHub strategy verify callback: resolve by `githubId` (updating
`lastLoginAt` and returning the matched account), else attach the provider
id and avatar to an email-matched account, else create a new user. The
returned `Option User` is the value passed to `done` (`none` models
`done(null, false)`). -/
def githubVerify (db : DB) (p : GitHubProfile) (now : Nat) : Option User × DB :=
  match userFindByGithubId db p.id with
  | some u => (some u, userUpdateLastLogin db u.id now)
  | none =>
    match userFindByEmail db (profileEmailKey p) with
    | some existing =>
      userUpdateGithubAttach db existing.id p.id p.photos.head? now
    | none =>
      let input : CreateUserInput :=
        { email := profileEmailKey p
          name := profileName p
          profileImage := p.photos.head?
          githubId := some p.id }
      let r := userCreate db input now
      (some r.1, r.2)

/-! ## Store views used by the theorems -/

/-- The `likedCount` counter of the (first) user with the given id. -/
def likedCountOf (db : DB) (i : OID) : Option Int :=
  (userFindById db i).map User.likedCount

/-- The `likedByCount` counter of the (first) user with the given id. -/
def likedByCountOf (db : DB) (i : OID) : Option Int :=
  (userFindById db i).map User.likedByCount

/-- Number of like edges from `a` to `b` in the store. -/
def edgeCount (db : DB) (a b : OID) : Nat :=
  db.likes.countP (fun l => l.fromUserId == a && l.toUserId == b)

/-- The users list after the counter-fixing folds of
`LikeModel.deleteByUserId` (before the user document itself is removed):
one `likedByCount` decrement per edge the user gave, one `likedCount`
decrement per edge the user received. -/
def cascadeUsers (db : DB) (me : OID) (now : Nat) : List User :=
  (db.likes.filter (fun l => l.toUserId == me)).foldl
    (fun acc lk => updateFirst (fun u => u.id == lk.fromUserId) (incBy .likedCount (-1) now) acc)
    ((db.likes.filter (fun l => l.fromUserId == me)).foldl
      (fun acc lk => updateFirst (fun u => u.id == lk.toUserId) (incBy .likedByCount (-1) now) acc)
      db.users)

/-- The `CreateUserInput` the GitHub verify callback builds when creating a
fresh account (branch 3 of the resolution). -/
def githubCreateInput (p : GitHubProfile) : CreateUserInput :=
  { email := profileEmailKey p
    name := profileName p
    profileImage := p.photos.head?
    githubId := some p.id }

/-! ## Concrete stores used by the closed theorems and witnesses -/

def userA : User := { id := 1, email := "a@x.com", name := "A" }
def userB : User := { id := 2, email := "b@x.com", name := "B" }

/-- Store with two users and no edges. -/
def dbAB : DB := { users := [userA, userB], nextId := 3 }

/-- Store with two users, one message from user 1 to user 2, one like edge
each way (with consistent counters), and a workplace owned by user 1. -/
def dbFull : DB :=
  { users :=
      [{ userA with likedCount := 1, likedByCount := 1 },
       { userB with likedCount := 1, likedByCount := 1 }]
    likes := [{ id := 3, fromUserId := 1, toUserId := 2, createdAt := 5 },
              { id := 4, fromUserId := 2, toUserId := 1, createdAt := 6 }]
    messages := [{ id := 5, fromUserId := 1, targetUserId := 2,
                   toUserEmail := some "b@x.com", subject := "hi",
                   content := "hello", createdAt := 7, updatedAt := 7 }]
    workplaces := [{ id := 6, userId := 1, name := "cafe" }]
    nextId := 7 }

/-- Issue time used by the C3 evaluation: a realistic `Date.now()` value in
milliseconds. -/
def t0 : Nat := 1700000000000

/-! ## Generic lemmas about the collection primitives -/

theorem find?_updateFirst_of_disjoint {α : Type} (p q : α → Bool) (f : α → α)
    (hq : ∀ a, q (f a) = q a) (hpq : ∀ a, p a = true → q a = false) :
    ∀ l : List α, (updateFirst p f l).find? q = l.find? q := by
  intro l
  induction l with
  | nil => rfl
  | cons x xs ih =>
    cases hp : p x with
    | true =>
      have hqx : q x = false := hpq x hp
      have hqfx : q (f x) = false := by rw [hq]; exact hqx
      simp [updateFirst, hp, List.find?_cons, hqx, hqfx]
    | false =>
      cases hqx : q x with
      | true => simp [updateFirst, hp, List.find?_cons, hqx]
      | false => simp [updateFirst, hp, List.find?_cons, hqx, ih]

theorem find?_updateFirst_self {α : Type} (p : α → Bool) (f : α → α)
    (hp : ∀ a, p (f a) = p a) :
    ∀ l : List α, (updateFirst p f l).find? p = (l.find? p).map f := by
  intro l
  induction l with
  | nil => rfl
  | cons x xs ih =>
    cases hpx : p x with
    | true =>
      have hpfx : p (f x) = true := by rw [hp]; exact hpx
      simp [updateFirst, hpx, List.find?_cons, hpfx]
    | false => simp [updateFirst, hpx, List.find?_cons, ih]

theorem find?_map_updateFirst {α β : Type} (p q : α → Bool) (f : α → α) (proj : α → β)
    (hq : ∀ a, q (f a) = q a) (hproj : ∀ a, proj (f a) = proj a) :
    ∀ l : List α, ((updateFirst p f l).find? q).map proj = (l.find? q).map proj := by
  intro l
  induction l with
  | nil => rfl
  | cons x xs ih =>
    cases hpx : p x with
    | true =>
      cases hqx : q x with
      | true =>
        have hqfx : q (f x) = true := by rw [hq]; exact hqx
        simp [updateFirst, hpx, List.find?_cons, hqx, hqfx, hproj]
      | false =>
        have hqfx : q (f x) = false := by rw [hq]; exact hqx
        simp [updateFirst, hpx, List.find?_cons, hqx, hqfx]
    | false =>
      cases hqx : q x with
      | true => simp [updateFirst, hpx, List.find?_cons, hqx]
      | false => simp [updateFirst, hpx, List.find?_cons, hqx, ih]

theorem find?_isSome_updateFirst {α : Type} (p q : α → Bool) (f : α → α)
    (hq : ∀ a, q (f a) = q a) :
    ∀ l : List α, ((updateFirst p f l).find? q).isSome = (l.find? q).isSome := by
  intro l
  have h := find?_map_updateFirst p q f (fun _ => ()) hq (fun _ => rfl) l
  cases h1 : (updateFirst p f l).find? q <;> cases h2 : l.find? q <;>
    simp [h1, h2] at h ⊢

theorem map_updateFirst_of_pres {α β : Type} (p : α → Bool) (f : α → α)
    (g : α → β) (hg : ∀ a, g (f a) = g a) :
    ∀ l : List α, (updateFirst p f l).map g = l.map g := by
  intro l
  induction l with
  | nil => rfl
  | cons x xs ih =>
    cases hpx : p x with
    | true => simp [updateFirst, hpx, hg]
    | false => simp [updateFirst, hpx, ih]

theorem find?_deleteFirst_of_disjoint {α : Type} (p q : α → Bool)
    (hpq : ∀ a, p a = true → q a = false) :
    ∀ l : List α, (deleteFirst p l).2.find? q = l.find? q := by
  intro l
  induction l with
  | nil => rfl
  | cons x xs ih =>
    cases hpx : p x with
    | true =>
      have hqx : q x = false := hpq x hpx
      simp [deleteFirst, hpx, List.find?_cons, hqx]
    | false =>
      cases hqx : q x with
      | true => simp [deleteFirst, hpx, List.find?_cons, hqx]
      | false => simp [deleteFirst, hpx, List.find?_cons, hqx, ih]

theorem deleteFirst_count_of_found {α : Type} (p : α → Bool) :
    ∀ l : List α, (l.find? p).isSome = true → (deleteFirst p l).1 = 1 := by
  intro l
  induction l with
  | nil => intro h; simp [List.find?] at h
  | cons x xs ih =>
    intro h
    cases hpx : p x with
    | true => simp [deleteFirst, hpx]
    | false =>
      rw [List.find?_cons_of_neg _ (by simp [hpx])] at h
      simp [deleteFirst, hpx, ih h]

theorem find?_key_deleteFirst_self {α : Type} (key : α → Nat) (i : Nat) :
    ∀ l : List α, (l.map key).Nodup →
      ((deleteFirst (fun a => key a == i) l).2).find? (fun a => key a == i) = none := by
  intro l
  induction l with
  | nil => intro _; rfl
  | cons x xs ih =>
    intro hnd
    rw [List.map_cons, List.nodup_cons] at hnd
    cases hx : (key x == i) with
    | true =>
      have hxi : key x = i := by simpa using hx
      simp only [deleteFirst, hx, if_true]
      rw [List.find?_eq_none]
      intro a ha
      simp only [beq_iff_eq]
      intro hai
      have hmem : key a ∈ List.map key xs := List.mem_map_of_mem key ha
      rw [hai, ← hxi] at hmem
      exact hnd.1 hmem
    | false =>
      simp [deleteFirst, hx, List.find?_cons, ih hnd.2]

theorem deleteFirst_append_singleton {α : Type} (p : α → Bool) (e : α) (he : p e = true) :
    ∀ l : List α, l.find? p = none → deleteFirst p (l ++ [e]) = (1, l) := by
  intro l
  induction l with
  | nil => intro _; simp [deleteFirst, he]
  | cons x xs ih =>
    intro h
    rw [List.find?_cons] at h
    cases hpx : p x with
    | true => simp [hpx] at h
    | false =>
      rw [hpx] at h
      simp [deleteFirst, hpx, ih h]

/-! ## Lemmas about the counter updates and the cascade folds -/

theorem incBy_id (fld : CounterField) (d : Int) (now : Nat) (u : User) :
    (incBy fld d now u).id = u.id := by
  cases fld <;> rfl

theorem incBy_key (fld : CounterField) (d : Int) (now : Nat) (c : OID) (u : User) :
    ((incBy fld d now u).id == c) = (u.id == c) := by
  rw [incBy_id]

/-- A decrement fold over a list of likes, lowered from `DB` to the raw
`users` list. -/
theorem foldl_dec_eq (sel : Like → OID) (fld : CounterField) (now : Nat) :
    ∀ (ls : List Like) (db : DB),
      ls.foldl (fun d l => userDecrementLikeCount d (sel l) fld now) db =
      { db with users := (ls.foldl (fun acc l => updateFirst (fun u => u.id == sel l) (incBy fld (-1) now) acc) db.users) } := by
  intro ls
  induction ls with
  | nil => intro db; rfl
  | cons lk ls ih =>
    intro db
    rw [List.foldl_cons, List.foldl_cons, ih]
    rfl

/-- Effect of a decrement fold on the observed counter of user `c`: it drops
by the number of fold steps that target `c`. -/
theorem foldl_decBy_count (sel : Like → OID) (fld : CounterField) (now : Nat) (c : OID)
    (proj : User → Int) (hproj : ∀ u, proj (incBy fld (-1) now u) = proj u - 1) :
    ∀ (ls : List Like) (l : List User),
      ((ls.foldl (fun acc lk => updateFirst (fun u => u.id == sel lk) (incBy fld (-1) now) acc) l).find?
          (fun u => u.id == c)).map proj
        = (l.find? (fun u => u.id == c)).map
            (fun u => proj u - ((ls.countP (fun lk => sel lk == c) : Nat) : Int)) := by
  intro ls
  induction ls with
  | nil =>
    intro l
    cases h : l.find? (fun u => u.id == c) <;> simp [h]
  | cons lk ls ih =>
    intro l
    rw [List.foldl_cons, ih]
    cases hc : (sel lk == c) with
    | true =>
      have hceq : sel lk = c := by simpa using hc
      rw [hceq]
      rw [find?_updateFirst_self (fun u => u.id == c) (incBy fld (-1) now)
        (incBy_key fld (-1) now c) l]
      rw [Option.map_map]
      cases h : l.find? (fun u => u.id == c) with
      | none => simp
      | some a =>
        simp [hproj, List.countP_cons, hceq]
        omega
    | false =>
      have hdisj : ∀ u : User, (u.id == sel lk) = true → (u.id == c) = false := by
        intro u hu
        have hue : u.id = sel lk := by simpa using hu
        have hne : sel lk ≠ c := by simpa using hc
        simp [hue, hne]
      rw [find?_updateFirst_of_disjoint (fun u => u.id == sel lk) (fun u => u.id == c)
        (incBy fld (-1) now) (incBy_key fld (-1) now c) hdisj l]
      simp [List.countP_cons, hc]

/-- A decrement fold leaves any user projection it does not touch
unchanged. -/
theorem foldl_decBy_preserve {β : Type} (sel : Like → OID) (fld : CounterField)
    (now : Nat) (c : OID) (proj : User → β)
    (hproj : ∀ u, proj (incBy fld (-1) now u) = proj u) :
    ∀ (ls : List Like) (l : List User),
      ((ls.foldl (fun acc lk => updateFirst (fun u => u.id == sel lk) (incBy fld (-1) now) acc) l).find?
          (fun u => u.id == c)).map proj
        = (l.find? (fun u => u.id == c)).map proj := by
  intro ls
  induction ls with
  | nil => intro l; rfl
  | cons lk ls ih =>
    intro l
    rw [List.foldl_cons, ih]
    exact find?_map_updateFirst (fun u => u.id == sel lk) (fun u => u.id == c)
      (incBy fld (-1) now) proj (incBy_key fld (-1) now c) hproj l

/-- A decrement fold preserves whether a user id can be found. -/
theorem foldl_decBy_isSome (sel : Like → OID) (fld : CounterField) (now : Nat) (c : OID) :
    ∀ (ls : List Like) (l : List User),
      ((ls.foldl (fun acc lk => updateFirst (fun u => u.id == sel lk) (incBy fld (-1) now) acc) l).find?
          (fun u => u.id == c)).isSome
        = ((l.find? (fun u => u.id == c)).isSome) := by
  intro ls
  induction ls with
  | nil => intro l; rfl
  | cons lk ls ih =>
    intro l
    rw [List.foldl_cons, ih]
    exact find?_isSome_updateFirst (fun u => u.id == sel lk) (fun u => u.id == c)
      (incBy fld (-1) now) (incBy_key fld (-1) now c) l

/-- A decrement fold preserves the list of user ids. -/
theorem foldl_decBy_map_id (sel : Like → OID) (fld : CounterField) (now : Nat) :
    ∀ (ls : List Like) (l : List User),
      (ls.foldl (fun acc lk => updateFirst (fun u => u.id == sel lk) (incBy fld (-1) now) acc) l).map User.id
        = l.map User.id := by
  intro ls
  induction ls with
  | nil => intro l; rfl
  | cons lk ls ih =>
    intro l
    rw [List.foldl_cons, ih]
    exact map_updateFirst_of_pres (fun u => u.id == sel lk) (incBy fld (-1) now)
      User.id (incBy_id fld (-1) now) l

/-- Counting within a `fromUserId` filter equals counting the conjunction. -/
theorem countP_filter_edge (likes : List Like) (a b : OID) :
    (likes.filter (fun l => l.fromUserId == a)).countP (fun l => l.toUserId == b)
      = likes.countP (fun l => l.fromUserId == a && l.toUserId == b) := by
  induction likes with
  | nil => rfl
  | cons x xs ih =>
    cases hf : (x.fromUserId == a) <;> cases ht : (x.toUserId == b) <;>
      simp [List.filter_cons, List.countP_cons, hf, ht, ih]

/-- Counting within a `toUserId` filter equals counting the conjunction. -/
theorem countP_filter_edge_rev (likes : List Like) (a b : OID) :
    (likes.filter (fun l => l.toUserId == b)).countP (fun l => l.fromUserId == a)
      = likes.countP (fun l => l.fromUserId == a && l.toUserId == b) := by
  induction likes with
  | nil => rfl
  | cons x xs ih =>
    cases hf : (x.fromUserId == a) <;> cases ht : (x.toUserId == b) <;>
      simp [List.filter_cons, List.countP_cons, hf, ht, ih]

/-- In a list with distinct keys, searching for the key of a member finds
exactly that member. -/
theorem find?_key_of_mem_nodup {α : Type} (key : α → Nat) :
    ∀ (l : List α), (l.map key).Nodup → ∀ x ∈ l,
      l.find? (fun a => key a == key x) = some x := by
  intro l
  induction l with
  | nil => intro _ x hx; cases hx
  | cons y ys ih =>
    intro hnd x hx
    rw [List.map_cons, List.nodup_cons] at hnd
    cases hk : (key y == key x) with
    | true =>
      have hkk : key y = key x := by simpa using hk
      rw [List.find?_cons, hk]
      rcases List.mem_cons.mp hx with hxy | hxs
      · rw [hxy]
      · have hmem : key y ∈ List.map key ys := by
          rw [hkk]; exact List.mem_map_of_mem key hxs
        exact absurd hmem hnd.1
    | false =>
      have hxy : x ∈ ys := by
        rcases List.mem_cons.mp hx with h | h
        · rw [h] at hk; simp at hk
        · exact h
      rw [List.find?_cons_of_neg _ (by simp [hk])]
      exact ih hnd.2 x hxy

/-! ## The claims -/

/-- C7: a manual join request whose email is already present in the user
store is answered 409 and the store is left completely unchanged, so no
account is created and the existing account keeps all its fields. -/
theorem join_duplicate_email_conflict (db : DB) (body : CreateUserInput) (now : Nat)
    (u : User)
    (hemail : body.email ≠ "") (hname : body.name ≠ "")
    (hgoal : goalTooLong body.collaborationGoal = false)
    (hdup : userFindByEmail db body.email = some u) :
    routeJoin db body now = (409, db) := by
  have h1 : (body.email == "") = false := by simpa using hemail
  have h2 : (body.name == "") = false := by simpa using hname
  simp [routeJoin, h1, h2, hgoal, hdup]

/-- C7 witness. -/
theorem join_duplicate_email_conflict_witness :
    routeJoin dbAB { email := "a@x.com", name := "Z" } 9 = (409, dbAB) :=
  join_duplicate_email_conflict dbAB { email := "a@x.com", name := "Z" } 9 userA
    (by decide) (by decide) (by decide) (by decide)

/-- C9: a request whose credential fails validation (malformed token, bad
signature, or expired) is processed as anonymous — `req.user` unset,
`isAuthenticated` false, no renewed cookie — never a hard error; routes
that require authentication then answer 401 themselves. -/
theorem invalid_credential_is_anonymous (db : DB) (c : Cred) (secret : String)
    (nowMs : Nat) (hbad : jwtVerify c secret nowMs = none) :
    authenticateJWT db (some c) secret nowMs =
      { user := none, isAuthenticated := false, newCookie := none } ∧
    (∀ (target : OID) (now : Nat), routeLike db none target now = (401, db)) ∧
    (∀ (msgId : OID) (now : Nat), routeMarkRead db none msgId now = (401, none, db)) := by
  refine ⟨?_, fun _ _ => rfl, fun _ _ => rfl⟩
  simp [authenticateJWT, hbad]

/-- C9 witness (malformed credential). -/
theorem invalid_credential_is_anonymous_witness :
    authenticateJWT dbAB (some Cred.malformed) "secret" 1000 =
      { user := none, isAuthenticated := false, newCookie := none } ∧
    (∀ (target : OID) (now : Nat), routeLike dbAB none target now = (401, dbAB)) ∧
    (∀ (msgId : OID) (now : Nat), routeMarkRead dbAB none msgId now = (401, none, dbAB)) :=
  invalid_credential_is_anonymous dbAB Cred.malformed "secret" 1000 rfl

/-- C3: the claim asserts a token presented at T+1h59m is renewed AND a
token presented at T+24h01m is rejected as anonymous. The code puts
`Date.now()` (milliseconds) into `iat`, so `jsonwebtoken` computes
`exp = iat + 86400` and compares it with the clock in seconds: the token
is still accepted (authenticated) at T+24h01m, contradicting the claimed
rejection, while the T+1h59m renewal does happen. -/
theorem token_still_accepted_after_24h :
    (authenticateJWT { users := [{ id := 7, email := "u@x.com", name := "U" }], nextId := 8 }
        (some (Cred.token (generateToken 7 t0 "s"))) "s" (t0 + 7140000)).isAuthenticated = true ∧
    (authenticateJWT { users := [{ id := 7, email := "u@x.com", name := "U" }], nextId := 8 }
        (some (Cred.token (generateToken 7 t0 "s"))) "s" (t0 + 7140000)).newCookie
      = some (generateToken 7 (t0 + 7140000) "s") ∧
    (authenticateJWT { users := [{ id := 7, email := "u@x.com", name := "U" }], nextId := 8 }
        (some (Cred.token (generateToken 7 t0 "s"))) "s" (t0 + 86460000)).isAuthenticated = true := by
  refine ⟨by decide, by decide, by decide⟩

/-- C6: the cascade run by `UserModel.delete` touches workplaces, likes and
the user document but never the messages collection: deleting user 1 leaves
the message sent by user 1 in the store while the user itself is gone, so a
message outlives the account it references. -/
theorem message_outlives_deleted_account :
    (routeDeleteAccount dbFull (some 1) 20).1 = 200 ∧
    userFindById (routeDeleteAccount dbFull (some 1) 20).2.2 1 = none ∧
    (routeDeleteAccount dbFull (some 1) 20).2.2.messages
      = [{ id := 5, fromUserId := 1, targetUserId := 2,
           toUserEmail := some "b@x.com", subject := "hi",
           content := "hello", createdAt := 7, updatedAt := 7 }] := by
  refine ⟨by decide, by decide, by decide⟩

/-- C10: every message `MessageModel.create` inserts carries a present
`toUserEmail`, and the `$or` filter of `MessageModel.deleteByUserId`
matches any message whose `toUserEmail` is present — so on a store whose
messages were all created through the model, `deleteByUserId u` deletes
every message, not only those involving `u`. -/
theorem deleteByUserId_deletes_all_messages :
    (∀ (db : DB) (fromId targetId : OID) (subject content : String) (now : Nat)
        (m : Message) (db' : DB),
        messageCreate db fromId targetId subject content now = some (m, db') →
        m.toUserEmail.isSome = true) ∧
    (∀ (db : DB) (u : OID),
        (∀ m ∈ db.messages, m.toUserEmail.isSome = true) →
        (messageDeleteByUserId db u).messages = []) := by
  constructor
  · intro db fromId targetId subject content now m db' h
    cases hf : userFindById db targetId with
    | none => simp [messageCreate, hf] at h
    | some t =>
      simp only [messageCreate, hf, Option.some.injEq, Prod.mk.injEq] at h
      rw [← h.1]
      rfl
  · intro db u h
    show db.messages.filter _ = []
    rw [List.filter_eq_nil_iff]
    intro m hm
    simp [h m hm]

/-- C10 witness: on the populated store, `deleteByUserId 2` (user 2 sent no
message) still deletes the message from user 1 to user 2. -/
theorem deleteByUserId_deletes_all_messages_witness :
    (messageDeleteByUserId dbFull 2).messages = [] :=
  deleteByUserId_deletes_all_messages.2 dbFull 2 (by decide)

/-- C8: marking a message read is permitted exactly for the message's
target: any other identified caller gets 403 with the store untouched; for
the target the route answers 200, the returned document has `isRead` true
and `readAt` stamped with the current time, and the store holds that
document — including when the message was already read, in which case
`readAt` is overwritten with the new time. -/
theorem markRead_target_only (db : DB) (me msgId : OID) (now : Nat) (m : Message)
    (hm : messageFindById db msgId = some m) :
    (m.targetUserId ≠ me → routeMarkRead db (some me) msgId now = (403, none, db)) ∧
    (m.targetUserId = me →
      (routeMarkRead db (some me) msgId now).1 = 200 ∧
      (routeMarkRead db (some me) msgId now).2.1
        = some { m with isRead := true, readAt := some now, updatedAt := now } ∧
      messageFindById (routeMarkRead db (some me) msgId now).2.2 msgId
        = some { m with isRead := true, readAt := some now, updatedAt := now }) := by
  constructor
  · intro hne
    have hb : (m.targetUserId != me) = true := by simpa using hne
    simp [routeMarkRead, hm, hb]
  · intro heq
    have hb : (m.targetUserId != me) = false := by simpa using heq
    have hmm : messageMarkAsRead db msgId now =
        (some { m with isRead := true, readAt := some now, updatedAt := now },
         { db with messages := (updateFirst (fun x => x.id == msgId)
             (fun x => { x with isRead := true, readAt := some now, updatedAt := now })
             db.messages) }) := by
      unfold messageMarkAsRead
      rw [show db.messages.find? (fun x => x.id == msgId) = some m from hm]
    refine ⟨?_, ?_, ?_⟩
    · simp [routeMarkRead, hm, hb, hmm]
    · simp [routeMarkRead, hm, hb, hmm]
    · simp only [routeMarkRead, hm, hb, hmm]
      show (updateFirst (fun x => x.id == msgId)
          (fun x => { x with isRead := true, readAt := some now, updatedAt := now })
          db.messages).find? (fun x => x.id == msgId) = _
      rw [find?_updateFirst_self (fun x => x.id == msgId)
        (fun x => { x with isRead := true, readAt := some now, updatedAt := now })
        (fun _ => rfl) db.messages]
      rw [show db.messages.find? (fun x => x.id == msgId) = some m from hm]
      rfl

/-- C8 witness: user 2 marks the message addressed to them. -/
theorem markRead_target_only_witness :
    (routeMarkRead dbFull (some 2) 5 30).1 = 200 ∧
    (routeMarkRead dbFull (some 2) 5 30).2.1
      = some { id := 5, fromUserId := 1, targetUserId := 2, toUserEmail := some "b@x.com",
               subject := "hi", content := "hello", isRead := true, readAt := some 30,
               createdAt := 7, updatedAt := 30 } :=
  ⟨((markRead_target_only dbFull 2 5 30
      { id := 5, fromUserId := 1, targetUserId := 2, toUserEmail := some "b@x.com",
        subject := "hi", content := "hello", createdAt := 7, updatedAt := 7 }
      (by decide)).2 rfl).1,
   ((markRead_target_only dbFull 2 5 30
      { id := 5, fromUserId := 1, targetUserId := 2, toUserEmail := some "b@x.com",
        subject := "hi", content := "hello", createdAt := 7, updatedAt := 7 }
      (by decide)).2 rfl).2.1⟩

/-! ## Characterizations of a successful like / unlike -/

/-- `LikeModel.create` on a store without the edge: the inserted edge and
the resulting store, spelled out. -/
theorem likeCreate_of_no_edge (db : DB) (a b : OID) (now1 : Nat)
    (hfind : db.likes.find? (fun l => l.fromUserId == a && l.toUserId == b) = none) :
    likeCreate db a b now1 =
      (some { id := db.nextId, fromUserId := a, toUserId := b, createdAt := now1 },
       { users := (updateFirst (fun u => u.id == b) (incBy .likedByCount 1 now1)
           (updateFirst (fun u => u.id == a) (incBy .likedCount 1 now1) db.users))
         likes := db.likes ++ [{ id := db.nextId, fromUserId := a, toUserId := b, createdAt := now1 }]
         messages := db.messages
         workplaces := db.workplaces
         nextId := db.nextId + 1 }) := by
  unfold likeCreate
  rw [hfind]
  rfl

/-- `LikeModel.delete` when the edge is found and removed: the resulting
store, spelled out. -/
theorem likeDelete_of_edge_found (db1 : DB) (a b : OID) (now2 : Nat) (rest : List Like)
    (h : deleteFirst (fun l => l.fromUserId == a && l.toUserId == b) db1.likes = (1, rest)) :
    likeDelete db1 a b now2 =
      (true,
       { users := (updateFirst (fun u => u.id == b) (incBy .likedByCount (-1) now2)
           (updateFirst (fun u => u.id == a) (incBy .likedCount (-1) now2) db1.users))
         likes := rest
         messages := db1.messages
         workplaces := db1.workplaces
         nextId := db1.nextId }) := by
  unfold likeDelete
  rw [h]
  rfl

/-- The `likedCount` of `a` after the double increment of a like. -/
theorem likedCount_after_inc (l0 : List User) (a b : OID) (now1 : Nat) (ua : User)
    (ha : l0.find? (fun u => u.id == a) = some ua) :
    ((updateFirst (fun u => u.id == b) (incBy .likedByCount 1 now1)
        (updateFirst (fun u => u.id == a) (incBy .likedCount 1 now1) l0)).find?
      (fun u => u.id == a)).map User.likedCount = some (ua.likedCount + 1) := by
  rw [find?_map_updateFirst (fun u => u.id == b) (fun u => u.id == a)
    (incBy .likedByCount 1 now1) User.likedCount (incBy_key _ _ _ _) (fun _ => rfl)]
  rw [find?_updateFirst_self (fun u => u.id == a) (incBy .likedCount 1 now1)
    (incBy_key _ _ _ _)]
  rw [ha]
  rfl

/-- The `likedByCount` of `b` after the double increment of a like. -/
theorem likedByCount_after_inc (l0 : List User) (a b : OID) (now1 : Nat) (ub : User)
    (hb : l0.find? (fun u => u.id == b) = some ub) :
    ((updateFirst (fun u => u.id == b) (incBy .likedByCount 1 now1)
        (updateFirst (fun u => u.id == a) (incBy .likedCount 1 now1) l0)).find?
      (fun u => u.id == b)).map User.likedByCount = some (ub.likedByCount + 1) := by
  rw [find?_updateFirst_self (fun u => u.id == b) (incBy .likedByCount 1 now1)
    (incBy_key _ _ _ _)]
  rw [Option.map_map]
  rw [find?_map_updateFirst (fun u => u.id == a) (fun u => u.id == b)
    (incBy .likedCount 1 now1) (User.likedByCount ∘ incBy .likedByCount 1 now1)
    (incBy_key _ _ _ _) (fun _ => rfl)]
  rw [hb]
  rfl

/-- The `likedCount` of `a` after a like followed by an unlike: restored. -/
theorem likedCount_after_inc_dec (l0 : List User) (a b : OID) (now1 now2 : Nat) (ua : User)
    (ha : l0.find? (fun u => u.id == a) = some ua) :
    ((updateFirst (fun u => u.id == b) (incBy .likedByCount (-1) now2)
        (updateFirst (fun u => u.id == a) (incBy .likedCount (-1) now2)
          (updateFirst (fun u => u.id == b) (incBy .likedByCount 1 now1)
            (updateFirst (fun u => u.id == a) (incBy .likedCount 1 now1) l0)))).find?
      (fun u => u.id == a)).map User.likedCount = some ua.likedCount := by
  rw [find?_map_updateFirst (fun u => u.id == b) (fun u => u.id == a)
    (incBy .likedByCount (-1) now2) User.likedCount (incBy_key _ _ _ _) (fun _ => rfl)]
  rw [find?_updateFirst_self (fun u => u.id == a) (incBy .likedCount (-1) now2)
    (incBy_key _ _ _ _)]
  rw [Option.map_map]
  rw [find?_map_updateFirst (fun u => u.id == b) (fun u => u.id == a)
    (incBy .likedByCount 1 now1) (User.likedCount ∘ incBy .likedCount (-1) now2)
    (incBy_key _ _ _ _) (fun _ => rfl)]
  rw [find?_updateFirst_self (fun u => u.id == a) (incBy .likedCount 1 now1)
    (incBy_key _ _ _ _)]
  rw [Option.map_map]
  rw [ha]
  show some (ua.likedCount + 1 + (-1)) = some ua.likedCount
  congr 1
  omega

/-- The `likedByCount` of `b` after a like followed by an unlike:
restored. -/
theorem likedByCount_after_inc_dec (l0 : List User) (a b : OID) (now1 now2 : Nat) (ub : User)
    (hb : l0.find? (fun u => u.id == b) = some ub) :
    ((updateFirst (fun u => u.id == b) (incBy .likedByCount (-1) now2)
        (updateFirst (fun u => u.id == a) (incBy .likedCount (-1) now2)
          (updateFirst (fun u => u.id == b) (incBy .likedByCount 1 now1)
            (updateFirst (fun u => u.id == a) (incBy .likedCount 1 now1) l0)))).find?
      (fun u => u.id == b)).map User.likedByCount = some ub.likedByCount := by
  rw [find?_updateFirst_self (fun u => u.id == b) (incBy .likedByCount (-1) now2)
    (incBy_key _ _ _ _)]
  rw [Option.map_map]
  rw [find?_map_updateFirst (fun u => u.id == a) (fun u => u.id == b)
    (incBy .likedCount (-1) now2) (User.likedByCount ∘ incBy .likedByCount (-1) now2)
    (incBy_key _ _ _ _) (fun _ => rfl)]
  rw [find?_updateFirst_self (fun u => u.id == b) (incBy .likedByCount 1 now1)
    (incBy_key _ _ _ _)]
  rw [Option.map_map]
  rw [find?_map_updateFirst (fun u => u.id == a) (fun u => u.id == b)
    (incBy .likedCount 1 now1)
    ((User.likedByCount ∘ incBy .likedByCount (-1) now2) ∘ incBy .likedByCount 1 now1)
    (incBy_key _ _ _ _) (fun _ => rfl)]
  rw [hb]
  show some (ub.likedByCount + 1 + (-1)) = some ub.likedByCount
  congr 1
  omega

/-- C1: on a store with two distinct existing users and no `(a, b)` edge,
`like(a,b)` followed by `unlike(a,b)` leaves no `(a, b)` edge and restores
`a`'s `likedCount` and `b`'s `likedByCount` to their pre-like values. -/
theorem like_unlike_roundtrip (db : DB) (a b : OID) (now1 now2 : Nat)
    (ua ub : User) (hab : a ≠ b)
    (ha : userFindById db a = some ua) (hb : userFindById db b = some ub)
    (hnoedge : likeExists db a b = false) :
    likeExists (likeDelete (likeCreate db a b now1).2 a b now2).2 a b = false ∧
    likedCountOf (likeDelete (likeCreate db a b now1).2 a b now2).2 a = some ua.likedCount ∧
    likedByCountOf (likeDelete (likeCreate db a b now1).2 a b now2).2 b = some ub.likedByCount := by
  have hfind : db.likes.find? (fun l => l.fromUserId == a && l.toUserId == b) = none := by
    unfold likeExists at hnoedge
    cases h : db.likes.find? (fun l => l.fromUserId == a && l.toUserId == b) with
    | none => rfl
    | some x => rw [h] at hnoedge; simp at hnoedge
  rw [likeCreate_of_no_edge db a b now1 hfind]
  rw [likeDelete_of_edge_found _ a b now2 db.likes
    (deleteFirst_append_singleton _ _ (by simp) db.likes hfind)]
  refine ⟨?_, ?_, ?_⟩
  · unfold likeExists
    show (db.likes.find? _).isSome = false
    rw [hfind]
    rfl
  · exact likedCount_after_inc_dec db.users a b now1 now2 ua ha
  · exact likedByCount_after_inc_dec db.users a b now1 now2 ub hb

/-- C1 witness: the two users of `dbAB`. -/
theorem like_unlike_roundtrip_witness :
    likeExists (likeDelete (likeCreate dbAB 1 2 10).2 1 2 11).2 1 2 = false ∧
    likedCountOf (likeDelete (likeCreate dbAB 1 2 10).2 1 2 11).2 1 = some 0 ∧
    likedByCountOf (likeDelete (likeCreate dbAB 1 2 10).2 1 2 11).2 2 = some 0 :=
  like_unlike_roundtrip dbAB 1 2 10 11 userA userB (by decide) (by decide) (by decide)
    (by decide)

/-- Lookup of the like target after the double increment of a like. -/
theorem find?_b_after_inc (l0 : List User) (a b : OID) (now1 : Nat) (ub : User)
    (hab : a ≠ b) (hb : l0.find? (fun u => u.id == b) = some ub) :
    (updateFirst (fun u => u.id == b) (incBy .likedByCount 1 now1)
        (updateFirst (fun u => u.id == a) (incBy .likedCount 1 now1) l0)).find?
      (fun u => u.id == b) = some (incBy .likedByCount 1 now1 ub) := by
  have hpq : ∀ u : User, (u.id == a) = true → (u.id == b) = false := by
    intro u hu
    have h1 : u.id = a := by simpa using hu
    simp [h1, hab]
  rw [find?_updateFirst_self (fun u => u.id == b) (incBy .likedByCount 1 now1)
    (incBy_key _ _ _ _)]
  rw [find?_updateFirst_of_disjoint (fun u => u.id == a) (fun u => u.id == b)
    (incBy .likedCount 1 now1) (incBy_key _ _ _ _) hpq l0]
  rw [hb]
  rfl

/-- C4: on a store with two distinct existing users and no `(a, b)` edge,
the first `POST /auth/like` succeeds (200), an immediate second like of the
same target fails explicitly with the duplicate-edge conflict (400,
already-liked) leaving the store untouched, so across the two calls the
caller's `likedCount` and the target's `likedByCount` each grew exactly
once; and `DELETE /auth/unlike` with no existing edge likewise fails
explicitly (400) leaving the store untouched. -/
theorem like_twice_conflict (db : DB) (a b : OID) (now1 now2 now3 : Nat)
    (ua ub : User) (hab : a ≠ b)
    (ha : userFindById db a = some ua) (hb : userFindById db b = some ub)
    (hnoedge : likeExists db a b = false) :
    (routeLike db (some a) b now1).1 = 200 ∧
    routeLike (routeLike db (some a) b now1).2 (some a) b now2
      = (400, (routeLike db (some a) b now1).2) ∧
    likedCountOf (routeLike db (some a) b now1).2 a = some (ua.likedCount + 1) ∧
    likedByCountOf (routeLike db (some a) b now1).2 b = some (ub.likedByCount + 1) ∧
    routeUnlike db (some a) b now3 = (400, db) := by
  have hab' : (a == b) = false := by simpa using hab
  have hfind : db.likes.find? (fun l => l.fromUserId == a && l.toUserId == b) = none := by
    unfold likeExists at hnoedge
    cases h : db.likes.find? (fun l => l.fromUserId == a && l.toUserId == b) with
    | none => rfl
    | some x => rw [h] at hnoedge; simp at hnoedge
  have hroute1 : routeLike db (some a) b now1 =
      (200,
       { users := (updateFirst (fun u => u.id == b) (incBy .likedByCount 1 now1)
           (updateFirst (fun u => u.id == a) (incBy .likedCount 1 now1) db.users))
         likes := db.likes ++ [{ id := db.nextId, fromUserId := a, toUserId := b, createdAt := now1 }]
         messages := db.messages
         workplaces := db.workplaces
         nextId := db.nextId + 1 }) := by
    simp only [routeLike, hab', Bool.false_eq_true, if_false, hb, hnoedge,
      likeCreate_of_no_edge db a b now1 hfind]
  have hexists1 : likeExists (routeLike db (some a) b now1).2 a b = true := by
    rw [hroute1]
    unfold likeExists
    show ((db.likes ++ _).find? _).isSome = true
    rw [List.find?_append, hfind]
    simp
  have hfindb1 : userFindById (routeLike db (some a) b now1).2 b
      = some (incBy .likedByCount 1 now1 ub) := by
    rw [hroute1]
    exact find?_b_after_inc db.users a b now1 ub hab hb
  have hroute2 : ∀ d1 : DB, userFindById d1 b = some (incBy .likedByCount 1 now1 ub) →
      likeExists d1 a b = true → routeLike d1 (some a) b now2 = (400, d1) := by
    intro d1 h1 h2
    simp only [routeLike, hab', Bool.false_eq_true, if_false, h1, h2, if_true]
  have hroute5 : routeUnlike db (some a) b now3 = (400, db) := by
    simp only [routeUnlike, hb, hnoedge, Bool.not_false, if_true]
  refine ⟨by rw [hroute1], hroute2 _ hfindb1 hexists1, ?_, ?_, hroute5⟩
  · rw [hroute1]
    exact likedCount_after_inc db.users a b now1 ua ha
  · rw [hroute1]
    exact likedByCount_after_inc db.users a b now1 ub hb

/-- C4 witness: the two users of `dbAB`. -/
theorem like_twice_conflict_witness :
    (routeLike dbAB (some 1) 2 10).1 = 200 ∧
    routeLike (routeLike dbAB (some 1) 2 10).2 (some 1) 2 11
      = (400, (routeLike dbAB (some 1) 2 10).2) ∧
    likedCountOf (routeLike dbAB (some 1) 2 10).2 1 = some 1 ∧
    likedByCountOf (routeLike dbAB (some 1) 2 10).2 2 = some 1 ∧
    routeUnlike dbAB (some 1) 2 12 = (400, dbAB) :=
  like_twice_conflict dbAB 1 2 10 11 12 userA userB (by decide) (by decide) (by decide)
    (by decide)

/-- C5: identity resolution order of the GitHub verify callback. On a store
with distinct user ids: (1) a `githubId` match returns that account,
creates no account (the id list is unchanged) and stamps its
`lastLoginAt`; (2) otherwise an email match gets the provider id and
avatar attached to the existing account — again no new account; (3)
otherwise a fresh user is appended, carrying the profile fields and
zero-initialized `likedCount` / `likedByCount`. -/
theorem oauth_identity_resolution (db : DB) (p : GitHubProfile) (now : Nat)
    (hnd : usersNodup db) :
    (∀ u, userFindByGithubId db p.id = some u →
      (githubVerify db p now).1 = some u ∧
      (githubVerify db p now).2.users.map User.id = db.users.map User.id ∧
      userFindById (githubVerify db p now).2 u.id
        = some { u with lastLoginAt := some now, updatedAt := now }) ∧
    (userFindByGithubId db p.id = none →
      ∀ ex, userFindByEmail db (profileEmailKey p) = some ex →
      (githubVerify db p now).1
        = some { ex with githubId := some p.id, profileImage := p.photos.head?, updatedAt := now } ∧
      (githubVerify db p now).2.users.map User.id = db.users.map User.id ∧
      userFindById (githubVerify db p now).2 ex.id
        = some { ex with githubId := some p.id, profileImage := p.photos.head?, updatedAt := now }) ∧
    (userFindByGithubId db p.id = none →
      userFindByEmail db (profileEmailKey p) = none →
      (githubVerify db p now).2.users
        = db.users ++ [mkUserDoc (githubCreateInput p) db.nextId now] ∧
      (githubVerify db p now).1 = some (mkUserDoc (githubCreateInput p) db.nextId now) ∧
      (mkUserDoc (githubCreateInput p) db.nextId now).likedCount = 0 ∧
      (mkUserDoc (githubCreateInput p) db.nextId now).likedByCount = 0) := by
  refine ⟨?_, ?_, ?_⟩
  · intro u hu
    have humem : u ∈ db.users := List.mem_of_find?_eq_some hu
    have hfid : db.users.find? (fun x => x.id == u.id) = some u :=
      find?_key_of_mem_nodup User.id db.users hnd u humem
    refine ⟨?_, ?_, ?_⟩
    · simp only [githubVerify, hu]
    · simp only [githubVerify, hu]
      show (updateFirst (fun x => x.id == u.id) _ db.users).map User.id = _
      exact map_updateFirst_of_pres (fun x => x.id == u.id)
        (fun x => { x with lastLoginAt := some now, updatedAt := now })
        User.id (fun _ => rfl) db.users
    · simp only [githubVerify, hu]
      show (updateFirst (fun x => x.id == u.id) _ db.users).find? (fun x => x.id == u.id) = _
      rw [find?_updateFirst_self (fun x => x.id == u.id)
        (fun x : User => { x with lastLoginAt := some now, updatedAt := now }) (fun _ => rfl)]
      rw [hfid]
      rfl
  · intro hg ex hex
    have hexmem : ex ∈ db.users := List.mem_of_find?_eq_some hex
    have hfid : db.users.find? (fun x => x.id == ex.id) = some ex :=
      find?_key_of_mem_nodup User.id db.users hnd ex hexmem
    have hupd : userUpdateGithubAttach db ex.id p.id p.photos.head? now =
        (some { ex with githubId := some p.id, profileImage := p.photos.head?, updatedAt := now },
         { db with users := (updateFirst (fun x => x.id == ex.id)
             (fun x => { x with githubId := some p.id, profileImage := p.photos.head?, updatedAt := now })
             db.users) }) := by
      unfold userUpdateGithubAttach
      rw [hfid]
    refine ⟨?_, ?_, ?_⟩
    · simp only [githubVerify, hg, hex, hupd]
    · simp only [githubVerify, hg, hex, hupd]
      show (updateFirst (fun x => x.id == ex.id) _ db.users).map User.id = _
      exact map_updateFirst_of_pres (fun x => x.id == ex.id)
        (fun x => { x with githubId := some p.id, profileImage := p.photos.head?, updatedAt := now })
        User.id (fun _ => rfl) db.users
    · simp only [githubVerify, hg, hex, hupd]
      show (updateFirst (fun x => x.id == ex.id) _ db.users).find? (fun x => x.id == ex.id) = _
      rw [find?_updateFirst_self (fun x => x.id == ex.id)
        (fun x : User => { x with githubId := some p.id, profileImage := p.photos.head?, updatedAt := now })
        (fun _ => rfl)]
      rw [hfid]
      rfl
  · intro hg he
    refine ⟨?_, ?_, rfl, rfl⟩
    · simp only [githubVerify, hg, he, userCreate]
      rfl
    · simp only [githubVerify, hg, he, userCreate]
      rfl

/-- C5 witness: a fresh GitHub profile on `dbAB` creates a new
zero-counter account. -/
theorem oauth_identity_resolution_witness :
    (githubVerify dbAB { id := "gh9", emails := ["c@x.com"], displayName := "C" } 40).2.users
      = dbAB.users ++
        [mkUserDoc (githubCreateInput { id := "gh9", emails := ["c@x.com"], displayName := "C" }) 3 40] :=
  ((oauth_identity_resolution dbAB { id := "gh9", emails := ["c@x.com"], displayName := "C" }
      40 (by decide)).2.2 (by decide) (by decide)).1

/-! ## Characterization of the deletion cascade -/

/-- `LikeModel.deleteByUserId`, lowered to raw list operations. -/
theorem likeDeleteByUserId_eq (db : DB) (me : OID) (now : Nat) :
    likeDeleteByUserId db me now =
      { users := cascadeUsers db me now
        likes := db.likes.filter (fun l => !(l.fromUserId == me || l.toUserId == me))
        messages := db.messages
        workplaces := db.workplaces
        nextId := db.nextId } := by
  simp only [likeDeleteByUserId]
  rw [foldl_dec_eq Like.toUserId .likedByCount now, foldl_dec_eq Like.fromUserId .likedCount now]
  rfl

/-- `UserModel.delete`, lowered to raw list operations. -/
theorem userDelete_eq (db : DB) (me : OID) (now : Nat) :
    userDelete db me now =
      ((deleteFirst (fun x => x.id == me) (cascadeUsers db me now)).1 != 0,
       { users := (deleteFirst (fun x => x.id == me) (cascadeUsers db me now)).2
         likes := db.likes.filter (fun l => !(l.fromUserId == me || l.toUserId == me))
         messages := db.messages
         workplaces := db.workplaces.filter (fun w => !(w.userId == me))
         nextId := db.nextId }) := by
  simp only [userDelete]
  rw [likeDeleteByUserId_eq]
  rfl

/-- Auxiliary: equal projections lift to equal projected subtractions. -/
theorem map_proj_sub {o1 o2 : Option User} (proj : User → Int) (n : Int)
    (h : o1.map proj = o2.map proj) :
    o1.map (fun u => proj u - n) = o2.map (fun u => proj u - n) := by
  cases o1 <;> cases o2 <;> simp_all

/-- After the cascade folds, a user's `likedByCount` dropped by the number
of edges the deleted user had given them. -/
theorem cascadeUsers_likedByCount (db : DB) (me c : OID) (now : Nat) :
    ((cascadeUsers db me now).find? (fun x => x.id == c)).map User.likedByCount
      = (db.users.find? (fun x => x.id == c)).map
          (fun x => x.likedByCount - ((db.likes.countP (fun l => l.fromUserId == me && l.toUserId == c) : Nat) : Int)) := by
  unfold cascadeUsers
  rw [foldl_decBy_preserve Like.fromUserId CounterField.likedCount now c
    User.likedByCount (fun _ => rfl)]
  rw [foldl_decBy_count Like.toUserId CounterField.likedByCount now c
    User.likedByCount (fun _ => rfl)]
  rw [countP_filter_edge db.likes me c]

/-- After the cascade folds, a user's `likedCount` dropped by the number
of edges they had given the deleted user. -/
theorem cascadeUsers_likedCount (db : DB) (me c : OID) (now : Nat) :
    ((cascadeUsers db me now).find? (fun x => x.id == c)).map User.likedCount
      = (db.users.find? (fun x => x.id == c)).map
          (fun x => x.likedCount - ((db.likes.countP (fun l => l.fromUserId == c && l.toUserId == me) : Nat) : Int)) := by
  unfold cascadeUsers
  rw [foldl_decBy_count Like.fromUserId CounterField.likedCount now c
    User.likedCount (fun _ => rfl)]
  rw [countP_filter_edge_rev db.likes c me]
  exact map_proj_sub User.likedCount _
    (foldl_decBy_preserve Like.toUserId CounterField.likedByCount now c
      User.likedCount (fun _ => rfl) _ _)

/-- C2: deleting an account (`DELETE /auth/delete` on an authenticated,
existing user over a store with distinct user ids) answers 200 and clears
the session cookie; afterwards every workplace owned by the user is gone,
every like edge touching the user is gone, looking the user up is
not-found, and every other user's `likedByCount` dropped once per edge the
deleted user had given them while their `likedCount` dropped once per edge
they had given the deleted user. -/
theorem delete_account_cascade (db : DB) (me : OID) (now : Nat) (u : User)
    (hnd : usersNodup db) (hme : userFindById db me = some u) :
    (routeDeleteAccount db (some me) now).1 = 200 ∧
    (routeDeleteAccount db (some me) now).2.1 = true ∧
    (routeDeleteAccount db (some me) now).2.2.workplaces
      = db.workplaces.filter (fun w => !(w.userId == me)) ∧
    (routeDeleteAccount db (some me) now).2.2.likes
      = db.likes.filter (fun l => !(l.fromUserId == me || l.toUserId == me)) ∧
    userFindById (routeDeleteAccount db (some me) now).2.2 me = none ∧
    (∀ c : OID, c ≠ me →
      likedByCountOf (routeDeleteAccount db (some me) now).2.2 c
        = (likedByCountOf db c).map (fun v => v - ((edgeCount db me c : Nat) : Int)) ∧
      likedCountOf (routeDeleteAccount db (some me) now).2.2 c
        = (likedCountOf db c).map (fun v => v - ((edgeCount db c me : Nat) : Int))) := by
  have hUBsome : ((cascadeUsers db me now).find? (fun x => x.id == me)).isSome = true := by
    unfold cascadeUsers
    rw [foldl_decBy_isSome Like.fromUserId CounterField.likedCount now me]
    rw [foldl_decBy_isSome Like.toUserId CounterField.likedByCount now me]
    rw [show db.users.find? (fun x => x.id == me) = some u from hme]
    rfl
  have hdel1 : (deleteFirst (fun x => x.id == me) (cascadeUsers db me now)).1 = 1 :=
    deleteFirst_count_of_found _ _ hUBsome
  have hstat : (userDelete db me now).1 = true := by
    rw [userDelete_eq]
    simp [hdel1]
  have hroute : routeDeleteAccount db (some me) now = (200, true, (userDelete db me now).2) := by
    simp only [routeDeleteAccount, hstat, Bool.not_true, Bool.false_eq_true, if_false]
  refine ⟨by rw [hroute], by rw [hroute], ?_, ?_, ?_, ?_⟩
  · rw [hroute]
    show (userDelete db me now).2.workplaces = _
    rw [userDelete_eq]
  · rw [hroute]
    show (userDelete db me now).2.likes = _
    rw [userDelete_eq]
  · rw [hroute]
    show (userDelete db me now).2.users.find? (fun x : User => x.id == me) = none
    rw [userDelete_eq]
    show ((deleteFirst (fun x : User => x.id == me) (cascadeUsers db me now)).2).find?
      (fun x : User => x.id == me) = none
    apply find?_key_deleteFirst_self User.id me
    unfold cascadeUsers
    rw [foldl_decBy_map_id Like.fromUserId CounterField.likedCount now]
    rw [foldl_decBy_map_id Like.toUserId CounterField.likedByCount now]
    exact hnd
  · intro c hc
    have hcdisj : ∀ x : User, (x.id == me) = true → (x.id == c) = false := by
      intro x hx
      have h1 : x.id = me := by simpa using hx
      have h2 : me ≠ c := fun h => hc h.symm
      simp [h1, h2]
    constructor
    · rw [hroute]
      show ((userDelete db me now).2.users.find? (fun x : User => x.id == c)).map User.likedByCount = _
      rw [userDelete_eq]
      show (((deleteFirst (fun x : User => x.id == me) (cascadeUsers db me now)).2).find?
        (fun x : User => x.id == c)).map User.likedByCount = _
      rw [find?_deleteFirst_of_disjoint (fun x : User => x.id == me) (fun x : User => x.id == c) hcdisj]
      rw [cascadeUsers_likedByCount db me c now]
      unfold likedByCountOf userFindById edgeCount
      cases hfc : db.users.find? (fun x => x.id == c) <;> simp [hfc]
    · rw [hroute]
      show ((userDelete db me now).2.users.find? (fun x : User => x.id == c)).map User.likedCount = _
      rw [userDelete_eq]
      show (((deleteFirst (fun x : User => x.id == me) (cascadeUsers db me now)).2).find?
        (fun x : User => x.id == c)).map User.likedCount = _
      rw [find?_deleteFirst_of_disjoint (fun x : User => x.id == me) (fun x : User => x.id == c) hcdisj]
      rw [cascadeUsers_likedCount db me c now]
      unfold likedCountOf userFindById edgeCount
      cases hfc : db.users.find? (fun x => x.id == c) <;> simp [hfc]

/-- C2 witness: deleting user 1 from the populated store. -/
theorem delete_account_cascade_witness :
    (routeDeleteAccount dbFull (some 1) 50).1 = 200 ∧
    (routeDeleteAccount dbFull (some 1) 50).2.1 = true ∧
    userFindById (routeDeleteAccount dbFull (some 1) 50).2.2 1 = none ∧
    likedByCountOf (routeDeleteAccount dbFull (some 1) 50).2.2 2
      = (likedByCountOf dbFull 2).map (fun v => v - ((edgeCount dbFull 1 2 : Nat) : Int)) :=
  ⟨(delete_account_cascade dbFull 1 50 { userA with likedCount := 1, likedByCount := 1 }
      (by decide) (by decide)).1,
   (delete_account_cascade dbFull 1 50 { userA with likedCount := 1, likedByCount := 1 }
      (by decide) (by decide)).2.1,
   (delete_account_cascade dbFull 1 50 { userA with likedCount := 1, likedByCount := 1 }
      (by decide) (by decide)).2.2.2.2.1,
   ((delete_account_cascade dbFull 1 50 { userA with likedCount := 1, likedByCount := 1 }
      (by decide) (by decide)).2.2.2.2.2 2 (by decide)).1⟩

end WorkMate
